import Mathlib

/-!
# Verification of the RisingWave `StreamManager` (rust/server/src/stream/stream_manager.rs)

A shallow embedding of `StreamManagerCore` and its operations:
`update_fragment`, `update_actor_info`, `build_fragment` (with its helpers
`create_merger`, `create_nodes`, `create_dispatcher`,
`build_agg_call_from_proto`), `wait_all`, and the test hook `take_source`.

Rust `Result` errors, panics (`unwrap`, `assert!`, `assert_eq!`, `todo!`,
`expect`) and normal returns are distinguished by the `StepResult` type.
Channels are identified by allocation order: the sender and receiver of the
n-th allocated channel both carry the id `n`, so a sender and a receiver are
paired exactly when they carry the same id.

External collaborators (protobuf decoding, the expression compiler, the
type resolver) live in other crates; they are modelled by carrying their
result directly in the data, as documented on each definition.
-/

namespace StreamManagerSpec

/-- Error codes from `crate::error::ErrorCode`, restricted to the variants
this file constructs: `InternalError(msg)`, `NotImplementedError(msg)` and
`ProtobufError`. -/
inductive ErrorCode where
  | internalError (msg : String)
  | notImplementedError (msg : String)
  | protobufError (msg : String)
  deriving DecidableEq, Repr

/-- Outcome of running a piece of Rust code: a normal return (`ok`), an
`Err` propagated through `Result` (`err`), or a panic (`panicked`) raised by
`unwrap`/`expect`/`assert!`/`assert_eq!`/`todo!`. -/
inductive StepResult (α : Type) where
  | ok (a : α)
  | err (e : ErrorCode)
  | panicked (msg : String)
  deriving DecidableEq, Repr

/-- `decide`-friendly test for a successful outcome. -/
def StepResult.isOk {α : Type} : StepResult α → Bool
  | .ok _ => true
  | _ => false

/-- `decide`-friendly test for a panic outcome. -/
def StepResult.isPanic {α : Type} : StepResult α → Bool
  | .panicked _ => true
  | _ => false

/-! ## Association lists standing in for `HashMap<u32, V>` -/

/-- `HashMap::get` / lookup by key. -/
def alookup {β : Type} (k : Nat) : List (Nat × β) → Option β
  | [] => none
  | (k', v) :: t => if k' = k then some v else alookup k t

/-- `HashMap::insert`: replaces the value at `k` in place if present
(returning the old value, like Rust), otherwise appends the new binding. -/
def ainsert {β : Type} (k : Nat) (v : β) : List (Nat × β) → (Option β × List (Nat × β))
  | [] => (none, [(k, v)])
  | (k', v') :: t =>
    if k' = k then (some v', (k', v) :: t)
    else
      let r := ainsert k v t
      (r.1, (k', v') :: r.2)

/-- `HashMap::remove`: removes the binding at `k`, returning the old value. -/
def aremove {β : Type} (k : Nat) : List (Nat × β) → (Option β × List (Nat × β))
  | [] => (none, [])
  | (k', v') :: t =>
    if k' = k then (some v', t)
    else
      let r := aremove k t
      (r.1, (k', v') :: r.2)

/-- `HashMap::entry(k).or_default()` followed by an in-place update of the
entry's value by `f`: inserts `default` first when `k` is absent. -/
def aupdate {β : Type} (dflt : β) (k : Nat) (f : β → β) : List (Nat × β) → List (Nat × β)
  | [] => [(k, f dflt)]
  | (k', v') :: t =>
    if k' = k then (k', f v') :: t
    else (k', v') :: aupdate dflt k f t

/-! ## Plan data (`risingwave_proto::stream_plan`, `stream_service`) -/

/-- An abstract resolved data type; produced by the external type resolver. -/
abbrev DataType : Type := Nat

/-- An abstract resolved aggregation kind (`AggKind`). -/
abbrev AggKind : Type := Nat

/-- An abstract compiled expression; produced by the external expression
compiler. -/
abbrev Expr : Type := Nat

/-- Modelled from the spec: the external type-resolution collaborator
(`crate::types::build_from_proto`, not under `src/`). A serialized type
descriptor either resolves to a data type or is rejected; the descriptor is
modelled as carrying that outcome. -/
inductive TypeProto where
  | valid (t : DataType)
  | invalid (msg : String)
  deriving DecidableEq, Repr

/-- Modelled from the spec: result of `crate::types::build_from_proto`. -/
def build_type_from_proto : TypeProto → StepResult DataType
  | .valid t => .ok t
  | .invalid msg => .err (.internalError msg)

/-- Modelled from the spec: a serialized aggregation-kind descriptor,
resolved by `AggKind::try_from` (in `crate::expr`, not under `src/`). -/
inductive AggKindProto where
  | valid (k : AggKind)
  | invalid (msg : String)
  deriving DecidableEq, Repr

/-- Modelled from the spec: result of `AggKind::try_from`. -/
def AggKind.tryFrom : AggKindProto → StepResult AggKind
  | .valid k => .ok k
  | .invalid msg => .err (.internalError msg)

/-- Modelled from the spec: a serialized expression descriptor, compiled by
the external expression compiler (`crate::expr::build_from_proto`). -/
inductive ExprProto where
  | valid (e : Expr)
  | invalid (msg : String)
  deriving DecidableEq, Repr

/-- Modelled from the spec: result of `crate::expr::build_from_proto`. -/
def build_expr_from_proto : ExprProto → StepResult Expr
  | .valid e => .ok e
  | .invalid msg => .err (.internalError msg)

/-- One argument of an `AggCall` proto: its serialized type and the input
column index (`arg.get_input().column_idx`). -/
structure AggArgProto where
  field_type : TypeProto
  column_idx : Nat
  deriving DecidableEq, Repr

/-- `risingwave_proto::expr::AggCall`: kind descriptor, argument list and
serialized return type. -/
structure AggCallProto where
  field_type : AggKindProto
  args : List AggArgProto
  return_type : TypeProto
  deriving DecidableEq, Repr

/-- `crate::expr::AggArgs`: zero or one resolved argument. -/
inductive AggArgs where
  | noArgs
  | unary (t : DataType) (column_idx : Nat)
  deriving DecidableEq, Repr

/-- `crate::expr::AggCall`: a fully resolved aggregate call. -/
structure AggCall where
  kind : AggKind
  args : AggArgs
  return_type : DataType
  deriving DecidableEq, Repr

/-- `stream_plan::ProjectNode` after protobuf decoding: its select list of
serialized expressions. -/
structure ProjectNode where
  select_list : List ExprProto
  deriving DecidableEq, Repr

/-- `stream_plan::FilterNode` after protobuf decoding. -/
structure FilterNode where
  search_condition : ExprProto
  deriving DecidableEq, Repr

/-- `stream_plan::SimpleAggNode` after protobuf decoding. -/
structure SimpleAggNode where
  agg_calls : List AggCallProto
  deriving DecidableEq, Repr

/-- `stream_plan::HashAggNode` after protobuf decoding. -/
structure HashAggNode where
  group_keys : List Nat
  agg_calls : List AggCallProto
  deriving DecidableEq, Repr

/-- `stream_plan::MemTableMaterializedViewNode` after protobuf decoding. -/
structure MemTableMVNode where
  pk_idx : List Nat
  deriving DecidableEq, Repr

/-- A stream-plan node's type tag together with the payload its `body`
bytes decode to. `parse_from_bytes` is external protobuf decoding, so each
supported tag carries the decoding outcome for its payload type directly
(`.err` = `ProtobufError`). `GLOBAL_SIMPLE_AGG` / `GLOBAL_HASH_AGG` and all
remaining tags hit `todo!` in the source and carry no payload. -/
inductive NodeKind where
  | projection (parsed : StepResult ProjectNode)
  | filter (parsed : StepResult FilterNode)
  | localSimpleAgg (parsed : StepResult SimpleAggNode)
  | globalSimpleAgg
  | localHashAgg (parsed : StepResult HashAggNode)
  | globalHashAgg
  | mtmv (parsed : StepResult MemTableMVNode)
  | unsupported (kind_name : String)
  deriving DecidableEq, Repr

/-- `stream_plan::StreamNode`: a node with an optional nested input node
(`has_input` / `get_input`). -/
inductive StreamNode where
  | leaf (kind : NodeKind)
  | cons (kind : NodeKind) (input : StreamNode)
  deriving DecidableEq, Repr

/-- `stream_plan::Dispatcher_DispatcherType`. -/
inductive DispatcherType where
  | roundRobin | hash | broadcast | simple | blackhole
  deriving DecidableEq, Repr

/-- `stream_plan::Dispatcher`: dispatcher type plus hash column index. -/
structure Dispatcher where
  field_type : DispatcherType
  column_idx : Nat
  deriving DecidableEq, Repr

/-- `stream_plan::StreamFragment`. -/
structure StreamFragment where
  fragment_id : Nat
  nodes : StreamNode
  dispatcher : Dispatcher
  upstream_fragment_id : List Nat
  downstream_fragment_id : List Nat
  deriving DecidableEq, Repr

/-- `stream_service::HostAddress` (only the host string is inspected). -/
structure HostAddress where
  host : String
  deriving DecidableEq, Repr

/-- `stream_service::ActorInfo`: fragment id and host placement. -/
structure ActorInfo where
  fragment_id : Nat
  host : HostAddress
  deriving DecidableEq, Repr

/-- `stream_service::ActorInfoTable`. -/
structure ActorInfoTable where
  info : List ActorInfo
  deriving DecidableEq, Repr

/-! ## Built operators -/

/-- The structure of a built `Box<dyn StreamOperator>` chain. Receivers are
channel ids. -/
inductive StreamOperator where
  | receiverOp (rx : Nat)
  | mergeOp (rxs : List Nat)
  | projectionOp (input : StreamOperator) (exprs : List Expr)
  | filterOp (input : StreamOperator) (cond : Expr)
  | simpleAggOp (input : StreamOperator) (calls : List AggCall)
  | hashAggOp (input : StreamOperator) (calls : List AggCall) (keys : List Nat)
  | memTableMVOp (input : StreamOperator) (pk_idx : List Nat)
  deriving DecidableEq, Repr

/-- The structure of a built `Box<dyn StreamConsumer>`: a `DispatchExecutor`
over the operator chain. Outputs are channel (sender) ids. -/
inductive StreamConsumer where
  | roundRobinDispatch (input : StreamOperator) (outputs : List Nat)
  | hashDispatch (input : StreamOperator) (outputs : List Nat) (keys : List Nat)
  | broadcastDispatch (input : StreamOperator) (outputs : List Nat)
  | simpleDispatch (input : StreamOperator) (output : Nat)
  | blackholeDispatch (input : StreamOperator)
  deriving DecidableEq, Repr

/-! ## The manager state -/

/-- `StreamManagerCore`. `handles`, `channel_pool`, `actors`, `fragments`
and `mock_source` are the fields of the Rust struct; channels are
represented by their allocation index, with `next_channel` the allocator
counter (the sender and receiver of one channel share its id).
`runtime_tasks` is not a struct field: it models the tokio runtime's list
of tasks spawned by `tokio::spawn`, in spawn order, each recorded with the
eventual outcome of `actor.run()` (`ok` = finished `Ok`, `err` = finished
`Err`, `panicked` = the task panicked, which `JoinHandle::await` reports as
a `JoinError`). -/
structure StreamManagerCore where
  handles : List (StepResult Unit)
  channel_pool : List (Nat × (List Nat × List Nat))
  actors : List (Nat × ActorInfo)
  fragments : List (Nat × StreamFragment)
  mock_source : Option Nat × Option Nat
  next_channel : Nat
  runtime_tasks : List (StepResult Unit)
  deriving DecidableEq, Repr

namespace StreamManagerCore

/-- `StreamManagerCore::new()`: empty maps, and one channel (id 0)
allocated for the mock source (`fragment_id = 0`). The Rust pair fields
`.0`/`.1` (sender, receiver) are the Lean pair fields `.1`/`.2`. -/
def new : StreamManagerCore where
  handles := []
  channel_pool := []
  actors := []
  fragments := []
  mock_source := (some 0, some 0)
  next_channel := 1
  runtime_tasks := []

end StreamManagerCore

/-- Sequencing of Rust statements: `Err` propagates via `?`, a panic
unwinds. -/
def StepResult.bind {α β : Type} : StepResult α → (α → StepResult β) → StepResult β
  | .ok a, f => f a
  | .err e, _ => .err e
  | .panicked m, _ => .panicked m

namespace StreamManagerCore

/-- The outbound half of `create_dispatcher`'s channel access, named
`take_outbound` by the spec:
`self.channel_pool.get_mut(&id).map(|x| std::mem::take(&mut x.0)).unwrap_or_default()`.
Returns the current sender collection (empty when the id is absent) and
leaves an empty collection behind. -/
def take_outbound (s : StreamManagerCore) (fragment_id : Nat) :
    List Nat × StreamManagerCore :=
  match alookup fragment_id s.channel_pool with
  | none => ([], s)
  | some p =>
    let pool := aupdate ([], []) fragment_id (fun q => ([], q.2)) s.channel_pool
    (p.1, { s with channel_pool := pool })

/-- The inbound half of `create_merger`'s channel access, named
`take_inbound` by the spec:
`self.channel_pool.get_mut(&id).map(|x| std::mem::take(&mut x.1)).unwrap_or_default()`. -/
def take_inbound (s : StreamManagerCore) (fragment_id : Nat) :
    List Nat × StreamManagerCore :=
  match alookup fragment_id s.channel_pool with
  | none => ([], s)
  | some p =>
    let pool := aupdate ([], []) fragment_id (fun q => (q.1, [])) s.channel_pool
    (p.2, { s with channel_pool := pool })

/-- `StreamManagerCore::create_dispatcher`: takes the outbound senders,
asserts their count equals the declared downstream count, then wraps the
chain per dispatcher type. `ROUND_ROBIN`/`HASH`/`BROADCAST` assert a
non-empty output set, `SIMPLE` asserts exactly one output; all the asserts
panic, they do not return `Err`. -/
def create_dispatcher (s : StreamManagerCore) (input : StreamOperator)
    (dispatcher : Dispatcher) (fragment_id : Nat) (downstreams : List Nat) :
    StepResult (StreamConsumer × StreamManagerCore) :=
  let taken := take_outbound s fragment_id
  let outputs := taken.1
  let s1 := taken.2
  if downstreams.length = outputs.length then
    match dispatcher.field_type with
    | .roundRobin =>
      if outputs.isEmpty then .panicked "assertion failed: !outputs.is_empty()"
      else .ok (.roundRobinDispatch input outputs, s1)
    | .hash =>
      if outputs.isEmpty then .panicked "assertion failed: !outputs.is_empty()"
      else .ok (.hashDispatch input outputs [dispatcher.column_idx], s1)
    | .broadcast =>
      if outputs.isEmpty then .panicked "assertion failed: !outputs.is_empty()"
      else .ok (.broadcastDispatch input outputs, s1)
    | .simple =>
      match outputs with
      | [o] => .ok (.simpleDispatch input o, s1)
      | _ => .panicked "assertion failed: outputs.len() == 1"
    | .blackhole => .ok (.blackholeDispatch input, s1)
  else .panicked "assertion failed: downstreams.len() == outputs.len()"

end StreamManagerCore

/-- `build_agg_call_from_proto`: 0 arguments become `AggArgs::None`, 1
argument is resolved through the external type resolver, and 2 or more
arguments return `Err(NotImplementedError("multiple aggregation args"))`
before any external call is made. -/
def build_agg_call_from_proto (p : AggCallProto) : StepResult AggCall :=
  let argsR : StepResult AggArgs :=
    match p.args with
    | [] => .ok .noArgs
    | [arg] =>
      (build_type_from_proto arg.field_type).bind fun t =>
        .ok (.unary t arg.column_idx)
    | _ => .err (.notImplementedError "multiple aggregation args")
  argsR.bind fun args =>
  (AggKind.tryFrom p.field_type).bind fun kind =>
  (build_type_from_proto p.return_type).bind fun rt =>
  .ok { kind := kind, args := args, return_type := rt }

/-- `iter().map(build_agg_call_from_proto).try_collect()`. -/
def build_agg_calls : List AggCallProto → StepResult (List AggCall)
  | [] => .ok []
  | p :: t =>
    (build_agg_call_from_proto p).bind fun c =>
    (build_agg_calls t).bind fun cs =>
    .ok (c :: cs)

/-- `iter().map(build_expr_from_proto).collect::<Result<Vec<_>>>()`. -/
def build_exprs : List ExprProto → StepResult (List Expr)
  | [] => .ok []
  | e :: t =>
    (build_expr_from_proto e).bind fun x =>
    (build_exprs t).bind fun xs =>
    .ok (x :: xs)

/-- Modelled from the spec: `SimpleAggExecutor::new` lives in
`crate::stream_op` (not under `src/`); its `Result` is propagated with `?`
at the call site, and the spec describes no failure condition for it, so it
is modelled as always succeeding. -/
def SimpleAggExecutor_new (input : StreamOperator) (calls : List AggCall) :
    StepResult StreamOperator :=
  .ok (.simpleAggOp input calls)

/-- One arm of the `match node.get_node_type()` in `create_nodes`: builds
the operator for `kind` over the already-built `input`. The `GLOBAL_*`
aggregation tags and every unsupported tag hit `todo!` (a panic). -/
def create_node_operator (kind : NodeKind) (input : StreamOperator) :
    StepResult StreamOperator :=
  match kind with
  | .projection parsed =>
    parsed.bind fun pn =>
    (build_exprs pn.select_list).bind fun es =>
    .ok (.projectionOp input es)
  | .filter parsed =>
    parsed.bind fun fn =>
    (build_expr_from_proto fn.search_condition).bind fun e =>
    .ok (.filterOp input e)
  | .localSimpleAgg parsed =>
    parsed.bind fun an =>
    (build_agg_calls an.agg_calls).bind fun cs =>
    SimpleAggExecutor_new input cs
  | .globalSimpleAgg => .panicked "not yet implemented"
  | .localHashAgg parsed =>
    parsed.bind fun an =>
    (build_agg_calls an.agg_calls).bind fun cs =>
    .ok (.hashAggOp input cs an.group_keys)
  | .globalHashAgg => .panicked "not yet implemented"
  | .mtmv parsed =>
    parsed.bind fun mn =>
    .ok (.memTableMVOp input mn.pk_idx)
  | .unsupported kind_name =>
    .panicked ("not yet implemented: unsupported StreamNodeType: " ++ kind_name)

namespace StreamManagerCore

/-- `StreamManagerCore::create_nodes`: builds the input operator first
(depth-first, the supplied merger terminating the recursion), then wraps it
with the current node's operator. It reads no manager state. -/
def create_nodes : StreamNode → StreamOperator → StepResult StreamOperator
  | .leaf kind, merger => create_node_operator kind merger
  | .cons kind inp, merger =>
    (create_nodes inp merger).bind fun input => create_node_operator kind input

/-- The `for upstream in upstreams` loop of `create_merger`, threading the
receiver vector and the mock-source receiver option. Upstream id 0 takes
the mock receiver (`self.mock_source.1.take().unwrap()` — a second take
panics); any other id is looked up in `actors` (`expect` panics when
absent), a local (`"127.0.0.1"`) placement just continues, and a remote one
hits `todo!`. -/
def merger_loop (actors : List (Nat × ActorInfo)) :
    List Nat → List Nat → Option Nat → StepResult (List Nat × Option Nat)
  | [], rxs, mock => .ok (rxs, mock)
  | u :: t, rxs, mock =>
    if u = 0 then
      match mock with
      | some rx => merger_loop actors t (rxs ++ [rx]) none
      | none => .panicked "called Option::unwrap() on a None value"
    else
      match alookup u actors with
      | none => .panicked "upstream actor not found in info table"
      | some actor =>
        if actor.host.host = "127.0.0.1" then merger_loop actors t rxs mock
        else .panicked "not yet implemented: remote node is not supported in streaming engine"

/-- `StreamManagerCore::create_merger`: asserts a non-empty upstream list,
takes the inbound receivers from the pool, runs the upstream loop, asserts
(`assert_eq!`, a panic) that the receiver count equals the upstream count
with a message naming both counts and the fragment id, and wraps one
receiver in a `ReceiverOperator` or several in a `MergeOperator`. -/
def create_merger (s : StreamManagerCore) (fragment_id : Nat)
    (upstreams : List Nat) : StepResult (StreamOperator × StreamManagerCore) :=
  if upstreams.isEmpty then .panicked "assertion failed: !upstreams.is_empty()"
  else
    let taken := take_inbound s fragment_id
    (merger_loop s.actors upstreams taken.1 s.mock_source.2).bind fun r =>
    let rxs := r.1
    let s1 := { taken.2 with mock_source := (taken.2.mock_source.1, r.2) }
    if rxs.length = upstreams.length then
      if upstreams.length = 1 then
        match rxs with
        | rx :: _ => .ok (.receiverOp rx, s1)
        | [] => .panicked "removal index (is 0) should be < len (is 0)"
      else .ok (.mergeOp rxs, s1)
    else
      .panicked ("upstreams are not fully available: " ++ toString rxs.length
        ++ " registered while " ++ toString upstreams.length
        ++ " required, fragment_id=" ++ toString fragment_id)

/-- `tokio::spawn(actor.run())`: hands the task to the runtime (appending
it, with its eventual outcome, to the runtime's task list in spawn order)
and returns a `JoinHandle` — which the caller in `build_fragment` drops. -/
def tokio_spawn (s : StreamManagerCore) (task : StepResult Unit) :
    StreamManagerCore :=
  { s with runtime_tasks := s.runtime_tasks ++ [task] }

/-- One iteration of `StreamManagerCore::build_fragment`'s loop:
`self.fragments.remove(fragment_id).unwrap()` (a second build of the same
id panics here), then merger, operator chain, dispatcher, and
`tokio::spawn(actor.run())` — whose `JoinHandle` is dropped, never pushed
onto `self.handles`. `runOutcome` gives the eventual result of each spawned
`actor.run()` task (runtime behavior, not decided by this code). -/
def build_fragment_one (runOutcome : StreamConsumer → StepResult Unit)
    (s : StreamManagerCore) (fragment_id : Nat) : StepResult StreamManagerCore :=
  match aremove fragment_id s.fragments with
  | (none, _) => .panicked "called Option::unwrap() on a None value"
  | (some fragment, rest) =>
    let s1 : StreamManagerCore := { s with fragments := rest }
    (create_merger s1 fragment_id fragment.upstream_fragment_id).bind fun mr =>
    (create_nodes fragment.nodes mr.1).bind fun operator =>
    (create_dispatcher mr.2 operator fragment.dispatcher fragment_id
        fragment.downstream_fragment_id).bind fun dr =>
    .ok (tokio_spawn dr.2 (runOutcome dr.1))

/-- `StreamManagerCore::build_fragment`: builds each listed fragment in
order. -/
def build_fragment (runOutcome : StreamConsumer → StepResult Unit)
    (s : StreamManagerCore) : List Nat → StepResult StreamManagerCore
  | [] => .ok s
  | id :: t =>
    (build_fragment_one runOutcome s id).bind fun s' =>
    build_fragment runOutcome s' t

/-- The join loop of `wait_all` over the taken `handles`:
`handle.await.unwrap()?` — a task that panicked makes the `unwrap` on its
`JoinError` panic, a task that returned `Err` short-circuits via `?`, and
an empty list yields `Ok(())`. -/
def wait_all_join : List (StepResult Unit) → StepResult Unit
  | [] => .ok ()
  | h :: t =>
    match h with
    | .ok _ => wait_all_join t
    | .err e => .err e
    | .panicked _ => .panicked "called Result::unwrap() on an Err value: JoinError"

/-- `StreamManagerCore::wait_all`: `std::mem::take(&mut self.handles)` then
joins each taken handle in order. -/
def wait_all (s : StreamManagerCore) : StepResult Unit × StreamManagerCore :=
  (wait_all_join s.handles, { s with handles := [] })

/-- The insertion loop of `update_actor_info`: inserts each actor keyed by
its fragment id, returning `Err(InternalError("duplicated actor <id>"))` as
soon as an insert replaces an existing entry — mutations already performed
(including the replacing insert itself) are kept. -/
def update_actor_info_loop :
    List (Nat × ActorInfo) → List ActorInfo →
    StepResult Unit × List (Nat × ActorInfo)
  | m, [] => (.ok (), m)
  | m, a :: t =>
    match ainsert a.fragment_id a m with
    | (some _, m') =>
      (.err (.internalError ("duplicated actor " ++ toString a.fragment_id)), m')
    | (none, m') => update_actor_info_loop m' t

/-- `StreamManagerCore::update_actor_info`. -/
def update_actor_info (s : StreamManagerCore) (table : ActorInfoTable) :
    StepResult Unit × StreamManagerCore :=
  let r := update_actor_info_loop s.actors table.info
  (r.1, { s with actors := r.2 })

/-- Phase 1 of `update_fragment`: inserts each fragment of the batch keyed
by its id, returning `Err(InternalError("duplicated fragment <id>"))` as
soon as an insert replaces an existing entry — earlier inserts of the batch
(and the replacing insert itself) are kept. -/
def update_fragment_insert :
    List (Nat × StreamFragment) → List StreamFragment →
    StepResult Unit × List (Nat × StreamFragment)
  | m, [] => (.ok (), m)
  | m, f :: t =>
    match ainsert f.fragment_id f m with
    | (some _, m') =>
      (.err (.internalError ("duplicated fragment " ++ toString f.fragment_id)), m')
    | (none, m') => update_fragment_insert m' t

/-- The inner loop of `update_fragment`'s phase 2 for one registry entry:
for every declared downstream of `current_id`, allocate one channel
(`channel(LOCAL_OUTPUT_CHANNEL_SIZE)`), pushing its sender onto
`current_id`'s outbound set and its receiver onto the downstream's inbound
set (`entry(..).or_default()` creates absent entries). -/
def declare_edges_one (current_id : Nat) :
    List Nat → List (Nat × (List Nat × List Nat)) → Nat →
    List (Nat × (List Nat × List Nat)) × Nat
  | [], pool, next => (pool, next)
  | downstream :: t, pool, next =>
    let pool1 := aupdate ([], []) current_id (fun p => (p.1 ++ [next], p.2)) pool
    let pool2 := aupdate ([], []) downstream (fun p => (p.1, p.2 ++ [next])) pool1
    declare_edges_one current_id t pool2 (next + 1)

/-- Phase 2 of `update_fragment`: `for (current_id, fragment) in
&self.fragments` — it walks every fragment currently registered, not just
the batch being added. -/
def declare_edges :
    List (Nat × StreamFragment) → List (Nat × (List Nat × List Nat)) → Nat →
    List (Nat × (List Nat × List Nat)) × Nat
  | [], pool, next => (pool, next)
  | (current_id, fragment) :: t, pool, next =>
    let r := declare_edges_one current_id fragment.downstream_fragment_id pool next
    declare_edges t r.1 r.2

/-- `StreamManagerCore::update_fragment`: phase 1 inserts the batch
(returning early, with the mutations kept, on a duplicate id); phase 2 then
allocates one channel per declared downstream edge of every registered
fragment. -/
def update_fragment (s : StreamManagerCore) (frs : List StreamFragment) :
    StepResult Unit × StreamManagerCore :=
  match update_fragment_insert s.fragments frs with
  | (.ok _, m') =>
    let r := declare_edges m' s.channel_pool s.next_channel
    (.ok (), { s with fragments := m', channel_pool := r.1, next_channel := r.2 })
  | (e, m') => (e, { s with fragments := m' })

/-- The `#[cfg(test)]` hook `StreamManager::take_source`:
`core.mock_source.0.take().unwrap()` — it takes the mock source's *sender*
half. -/
def take_source (s : StreamManagerCore) : StepResult (Nat × StreamManagerCore) :=
  match s.mock_source.1 with
  | none => .panicked "called Option::unwrap() on a None value"
  | some tx => .ok (tx, { s with mock_source := (none, s.mock_source.2) })

end StreamManagerCore

/-! ## Concrete inputs used by witnesses and counterexamples -/

/-- A minimal buildable fragment: mock upstream, empty projection,
blackhole dispatch, no downstream. -/
def frag7 : StreamFragment :=
  { fragment_id := 7, nodes := .leaf (.projection (.ok ⟨[]⟩)),
    dispatcher := ⟨.blackhole, 0⟩,
    upstream_fragment_id := [0], downstream_fragment_id := [] }

/-- Fragment 1, one declared downstream edge to fragment 2. -/
def fragA : StreamFragment :=
  { fragment_id := 1, nodes := .leaf (.projection (.ok ⟨[]⟩)),
    dispatcher := ⟨.simple, 0⟩,
    upstream_fragment_id := [0], downstream_fragment_id := [2] }

/-- Fragment 2, as first registered. -/
def fragB : StreamFragment := { fragA with fragment_id := 2 }

/-- A different fragment also claiming id 2. -/
def fragB2 : StreamFragment :=
  { fragA with fragment_id := 2, downstream_fragment_id := [9] }

/-- Fragment 3, no declared edges. -/
def fragC : StreamFragment :=
  { fragment_id := 3, nodes := .leaf (.projection (.ok ⟨[]⟩)),
    dispatcher := ⟨.blackhole, 0⟩,
    upstream_fragment_id := [0], downstream_fragment_id := [] }

/-- A fragment also claiming fragment id 1. -/
def fragA2 : StreamFragment := { fragA with downstream_fragment_id := [9] }

/-- A run oracle under which every actor task finishes successfully. -/
def runOk : StreamConsumer → StepResult Unit := fun _ => .ok ()

/-- A run oracle under which every actor task finishes with an error. -/
def runErr : StreamConsumer → StepResult Unit :=
  fun _ => .err (.internalError "actor failed")

/-- Upstreams 2 and 3 placed locally, but only one inbound receiver
registered for fragment 1. -/
def sTwoUpstreams : StreamManagerCore :=
  { StreamManagerCore.new with
      actors := [(2, ⟨2, ⟨"127.0.0.1"⟩⟩), (3, ⟨3, ⟨"127.0.0.1"⟩⟩)],
      channel_pool := [(1, ([], [10]))] }

/-- Upstream 5 placed on a remote host. -/
def sRemote : StreamManagerCore :=
  { StreamManagerCore.new with actors := [(5, ⟨5, ⟨"192.168.1.1"⟩⟩)] }

/-- Two outbound senders registered for fragment 1. -/
def sTwoOut : StreamManagerCore :=
  { StreamManagerCore.new with channel_pool := [(1, ([4, 5], []))] }

/-- One outbound sender registered for fragment 1. -/
def sOneOut : StreamManagerCore :=
  { StreamManagerCore.new with channel_pool := [(1, ([4], []))] }

/-- A manager whose mock-source receiver has already been consumed. -/
def sMockGone : StreamManagerCore :=
  { StreamManagerCore.new with mock_source := (some 0, none) }

/-- An aggregate call with one well-formed argument. -/
def aggUnary : AggCallProto := ⟨.valid 4, [⟨.valid 2, 3⟩], .valid 5⟩

/-- An aggregate call with two arguments. -/
def aggBinary : AggCallProto := ⟨.valid 4, [⟨.valid 2, 3⟩, ⟨.valid 2, 4⟩], .valid 5⟩

/-! ## Association-list lemmas -/

theorem ainsert_fst {β : Type} (k : Nat) (v : β) (m : List (Nat × β)) :
    (ainsert k v m).1 = alookup k m := by
  induction m with
  | nil => rfl
  | cons h t ih =>
    obtain ⟨k', v'⟩ := h
    by_cases hk : k' = k <;> simp [ainsert, alookup, hk, ih]

theorem alookup_ainsert_self {β : Type} (k : Nat) (v : β) (m : List (Nat × β)) :
    alookup k (ainsert k v m).2 = some v := by
  induction m with
  | nil => simp [ainsert, alookup]
  | cons h t ih =>
    obtain ⟨k', v'⟩ := h
    by_cases hk : k' = k <;> simp [ainsert, alookup, hk, ih]

theorem alookup_ainsert_ne {β : Type} {j k : Nat} (hjk : j ≠ k) (v : β)
    (m : List (Nat × β)) : alookup j (ainsert k v m).2 = alookup j m := by
  have hkj : k ≠ j := Ne.symm hjk
  induction m with
  | nil => simp [ainsert, alookup, hkj]
  | cons h t ih =>
    obtain ⟨k', v'⟩ := h
    by_cases hk : k' = k
    · subst hk
      simp [ainsert, alookup, hkj]
    · by_cases hj : k' = j <;> simp [ainsert, alookup, hk, hj, hjk, ih]

theorem aremove_fst {β : Type} (k : Nat) (m : List (Nat × β)) :
    (aremove k m).1 = alookup k m := by
  induction m with
  | nil => rfl
  | cons h t ih =>
    obtain ⟨k', v'⟩ := h
    by_cases hk : k' = k <;> simp [aremove, alookup, hk, ih]

theorem alookup_eq_none_of_not_mem {β : Type} {k : Nat} {m : List (Nat × β)}
    (h : k ∉ m.map Prod.fst) : alookup k m = none := by
  induction m with
  | nil => rfl
  | cons hd t ih =>
    obtain ⟨k', v'⟩ := hd
    simp only [List.map_cons, List.mem_cons] at h
    push_neg at h
    have h1 : k' ≠ k := Ne.symm h.1
    simp [alookup, h1, ih h.2]

theorem alookup_aremove_self {β : Type} {k : Nat} {m : List (Nat × β)}
    (nd : (m.map Prod.fst).Nodup) : alookup k (aremove k m).2 = none := by
  induction m with
  | nil => rfl
  | cons hd t ih =>
    obtain ⟨k', v'⟩ := hd
    simp only [List.map_cons, List.nodup_cons] at nd
    by_cases hk : k' = k
    · subst hk
      simpa [aremove] using alookup_eq_none_of_not_mem nd.1
    · simp [aremove, alookup, hk, ih nd.2]

theorem alookup_aupdate_self {β : Type} (d : β) (k : Nat) (f : β → β)
    (m : List (Nat × β)) :
    alookup k (aupdate d k f m) = some (f ((alookup k m).getD d)) := by
  induction m with
  | nil => simp [aupdate, alookup]
  | cons h t ih =>
    obtain ⟨k', v'⟩ := h
    by_cases hk : k' = k <;> simp [aupdate, alookup, hk, ih]

theorem aupdate_aupdate_same {β : Type} (d : β) (k : Nat) (f g : β → β)
    (m : List (Nat × β)) :
    aupdate d k f (aupdate d k g m) = aupdate d k (fun x => f (g x)) m := by
  induction m with
  | nil => simp [aupdate]
  | cons h t ih =>
    obtain ⟨k', v'⟩ := h
    by_cases hk : k' = k <;> simp [aupdate, hk, ih]

/-! ## StepResult lemmas -/

theorem StepResult.bind_eq_ok {α β : Type} {x : StepResult α}
    {f : α → StepResult β} {b : β} :
    x.bind f = .ok b ↔ ∃ a, x = .ok a ∧ f a = .ok b := by
  cases x <;> simp [StepResult.bind]

/-! ## Lemmas about the merge-builder loop -/

/-- A prefix of upstreams that are all non-bootstrap and locally placed is
skipped by the loop without touching the receiver vector or the mock
source. -/
theorem merger_loop_skips_local (actors : List (Nat × ActorInfo))
    (pre : List Nat) :
    ∀ (rest rxs : List Nat) (mock : Option Nat),
      (∀ v ∈ pre, v ≠ 0 ∧ ∃ a, alookup v actors = some a ∧
        a.host.host = "127.0.0.1") →
      StreamManagerCore.merger_loop actors (pre ++ rest) rxs mock =
        StreamManagerCore.merger_loop actors rest rxs mock := by
  induction pre with
  | nil => intro rest rxs mock _; rfl
  | cons v pre ih =>
    intro rest rxs mock h
    obtain ⟨hv0, a, ha, hlocal⟩ := h v (by simp)
    have hrec := ih rest rxs mock (fun u hu => h u (by simp [hu]))
    simp [StreamManagerCore.merger_loop, hv0, ha, hlocal, hrec]

/-- If the loop returns normally and either upstream 0 was listed or the
mock receiver was already gone, the mock receiver is gone afterwards. -/
theorem merger_loop_ok_mock (actors : List (Nat × ActorInfo)) :
    ∀ (ups rxs : List Nat) (mock : Option Nat) (r : List Nat × Option Nat),
      StreamManagerCore.merger_loop actors ups rxs mock = .ok r →
      (0 ∈ ups ∨ mock = none) → r.2 = none := by
  intro ups
  induction ups with
  | nil =>
    intro rxs mock r h hm
    simp only [StreamManagerCore.merger_loop, StepResult.ok.injEq] at h
    rcases hm with h0 | hm
    · simp at h0
    · rw [← h]; exact hm
  | cons u t ih =>
    intro rxs mock r h hm
    by_cases hu : u = 0
    · subst hu
      cases hmo : mock with
      | none => rw [hmo] at h; simp [StreamManagerCore.merger_loop] at h
      | some rx =>
        rw [hmo] at h
        simp only [StreamManagerCore.merger_loop, if_pos rfl] at h
        exact ih _ _ r h (Or.inr rfl)
    · cases ha : alookup u actors with
      | none => simp [StreamManagerCore.merger_loop, hu, ha] at h
      | some actor =>
        by_cases hl : actor.host.host = "127.0.0.1"
        · simp only [StreamManagerCore.merger_loop, if_neg hu, ha, if_pos hl] at h
          refine ih _ _ r h ?_
          rcases hm with h0 | hm
          · rcases List.mem_cons.mp h0 with h00 | h0t
            · exact absurd h00.symm hu
            · exact Or.inl h0t
          · exact Or.inr hm
        · simp [StreamManagerCore.merger_loop, hu, ha, hl] at h

/-! ## State-preservation lemmas for the builder steps -/

theorem take_inbound_snd (s : StreamManagerCore) (id : Nat) :
    (StreamManagerCore.take_inbound s id).2.fragments = s.fragments ∧
    (StreamManagerCore.take_inbound s id).2.mock_source = s.mock_source ∧
    (StreamManagerCore.take_inbound s id).2.handles = s.handles := by
  unfold StreamManagerCore.take_inbound
  cases alookup id s.channel_pool <;> simp

theorem take_outbound_snd (s : StreamManagerCore) (id : Nat) :
    (StreamManagerCore.take_outbound s id).2.fragments = s.fragments ∧
    (StreamManagerCore.take_outbound s id).2.mock_source = s.mock_source ∧
    (StreamManagerCore.take_outbound s id).2.handles = s.handles := by
  unfold StreamManagerCore.take_outbound
  cases alookup id s.channel_pool <;> simp

/-- A merge build that returns normally does not touch the fragment
registry, and if upstream 0 was listed the mock receiver is consumed. -/
theorem create_merger_ok_inv {s : StreamManagerCore} {id : Nat}
    {ups : List Nat} {p : StreamOperator × StreamManagerCore}
    (h : StreamManagerCore.create_merger s id ups = .ok p) :
    p.2.fragments = s.fragments ∧ p.2.handles = s.handles ∧
    (0 ∈ ups → p.2.mock_source.2 = none) := by
  unfold StreamManagerCore.create_merger at h
  by_cases he : ups.isEmpty
  · simp [he] at h
  · rw [if_neg he] at h
    rw [StepResult.bind_eq_ok] at h
    obtain ⟨r, hloop, hrest⟩ := h
    have hmock := merger_loop_ok_mock s.actors ups _ _ r hloop
    have hti := take_inbound_snd s id
    dsimp only at hrest
    split at hrest <;> try split at hrest
    all_goals try split at hrest
    all_goals
      first
        | (simp only [StepResult.ok.injEq] at hrest
           subst hrest
           exact ⟨hti.1, hti.2.2, fun h0 => hmock (Or.inl h0)⟩)
        | simp at hrest

/-- A dispatcher build that returns normally does not touch the fragment
registry, the mock source or the handle list. -/
theorem create_dispatcher_ok_inv {s : StreamManagerCore}
    {input : StreamOperator} {d : Dispatcher} {id : Nat} {ds : List Nat}
    {p : StreamConsumer × StreamManagerCore}
    (h : StreamManagerCore.create_dispatcher s input d id ds = .ok p) :
    p.2.fragments = s.fragments ∧ p.2.mock_source = s.mock_source ∧
    p.2.handles = s.handles := by
  unfold StreamManagerCore.create_dispatcher at h
  have hto := take_outbound_snd s id
  dsimp only at h
  split at h <;> try split at h
  all_goals try split at h
  all_goals
    first
      | (simp only [StepResult.ok.injEq] at h
         subst h
         exact ⟨hto.1, hto.2.1, hto.2.2⟩)
      | simp at h

/-- A build of a fragment id with no registry entry panics on the `unwrap`
of `self.fragments.remove(fragment_id)`. -/
theorem build_fragment_one_not_found {run : StreamConsumer → StepResult Unit}
    {s : StreamManagerCore} {id : Nat}
    (h : alookup id s.fragments = none) :
    StreamManagerCore.build_fragment_one run s id =
      .panicked "called Option::unwrap() on a None value" := by
  have h1 : aremove id s.fragments = (none, (aremove id s.fragments).2) := by
    rw [← h, ← aremove_fst]
  unfold StreamManagerCore.build_fragment_one
  rw [h1]

/-- A build that returns normally has removed exactly the built id's
binding from the fragment registry. -/
theorem build_fragment_one_ok_fragments
    {run : StreamConsumer → StepResult Unit} {s s' : StreamManagerCore}
    {id : Nat} (h : StreamManagerCore.build_fragment_one run s id = .ok s') :
    s'.fragments = (aremove id s.fragments).2 := by
  unfold StreamManagerCore.build_fragment_one at h
  cases hrem : aremove id s.fragments with
  | mk o rest =>
    rw [hrem] at h
    cases o with
    | none => simp at h
    | some fragment =>
      dsimp only at h
      rw [StepResult.bind_eq_ok] at h
      obtain ⟨mr, hmr, h⟩ := h
      rw [StepResult.bind_eq_ok] at h
      obtain ⟨op, hop, h⟩ := h
      rw [StepResult.bind_eq_ok] at h
      obtain ⟨dr, hdr, h⟩ := h
      simp only [StepResult.ok.injEq] at h
      subst h
      have hm := create_merger_ok_inv hmr
      have hd := create_dispatcher_ok_inv hdr
      show dr.2.fragments = rest
      rw [hd.1, hm.1]

/-- `build_fragment` on a one-element list is its single loop iteration. -/
theorem build_fragment_single_ok
    {run : StreamConsumer → StepResult Unit} {s s' : StreamManagerCore}
    {id : Nat} (h : StreamManagerCore.build_fragment run s [id] = .ok s') :
    StreamManagerCore.build_fragment_one run s id = .ok s' := by
  unfold StreamManagerCore.build_fragment at h
  rw [StepResult.bind_eq_ok] at h
  obtain ⟨s1, h1, h2⟩ := h
  simp only [StreamManagerCore.build_fragment, StepResult.ok.injEq] at h2
  rw [← h2]
  exact h1

/-! ## Claim C5 -/

/-- C5: building a registered fragment id consumes its definition — after a
successful build of `[id]` the registry no longer holds `id` — and a second
build of the same id does not build twice: it fails, by panicking on the
`unwrap` of the emptied registry entry (the claim itself records that the
source panics here). -/
theorem c5_fragment_consumed_once
    (run : StreamConsumer → StepResult Unit) (s s' : StreamManagerCore)
    (id : Nat) (hnd : (s.fragments.map Prod.fst).Nodup)
    (h : StreamManagerCore.build_fragment run s [id] = .ok s') :
    alookup id s'.fragments = none ∧
    StreamManagerCore.build_fragment run s' [id] =
      .panicked "called Option::unwrap() on a None value" := by
  have h1 := build_fragment_single_ok h
  have hf := build_fragment_one_ok_fragments h1
  have hnone : alookup id s'.fragments = none := by
    rw [hf]; exact alookup_aremove_self hnd
  refine ⟨hnone, ?_⟩
  have h2 := @build_fragment_one_not_found run s' id hnone
  unfold StreamManagerCore.build_fragment
  rw [h2]
  rfl

/-- The manager state after registering and building `frag7` with every
actor task succeeding. -/
def sAfterBuild7 : StreamManagerCore :=
  ⟨[], [], [], [], (some 0, none), 1, [.ok ()]⟩

/-- Witness for C5 at a concrete run: fragment 7 is registered, built once
successfully, gone from the registry, and a second build panics. -/
theorem c5_witness :
    alookup 7 sAfterBuild7.fragments = none ∧
    StreamManagerCore.build_fragment runOk sAfterBuild7 [7] =
      .panicked "called Option::unwrap() on a None value" :=
  c5_fragment_consumed_once runOk
    (StreamManagerCore.update_fragment StreamManagerCore.new [frag7]).2
    sAfterBuild7 7 (by decide) (by decide)

/-! ## Claim C9 -/

/-- C9: taking the outbound (resp. inbound) endpoint collection returns the
full current collection for that fragment id, and a second take for the
same id returns the empty collection and leaves the state unchanged — the
pool never re-exposes taken endpoints. -/
theorem c9_take_semantics (s : StreamManagerCore) (id : Nat) :
    (StreamManagerCore.take_outbound s id).1 =
      ((alookup id s.channel_pool).getD ([], [])).1 ∧
    StreamManagerCore.take_outbound (StreamManagerCore.take_outbound s id).2 id =
      ([], (StreamManagerCore.take_outbound s id).2) ∧
    (StreamManagerCore.take_inbound s id).1 =
      ((alookup id s.channel_pool).getD ([], [])).2 ∧
    StreamManagerCore.take_inbound (StreamManagerCore.take_inbound s id).2 id =
      ([], (StreamManagerCore.take_inbound s id).2) := by
  cases hp : alookup id s.channel_pool with
  | none =>
    simp [StreamManagerCore.take_outbound, StreamManagerCore.take_inbound, hp]
  | some p =>
    refine ⟨?_, ?_, ?_, ?_⟩ <;>
      simp [StreamManagerCore.take_outbound, StreamManagerCore.take_inbound,
        hp, alookup_aupdate_self, aupdate_aupdate_same]

/-! ## Claim C7 -/

/-- C7: aggregate-call construction returns
`Err(NotImplementedError("multiple aggregation args"))` — the spec's
UnsupportedFeature — for argument arity 2 or more, and succeeds for arity 0
or 1 whenever the external type and kind resolutions succeed. -/
theorem c7_agg_call_arity (p : AggCallProto) :
    (2 ≤ p.args.length →
      build_agg_call_from_proto p =
        .err (.notImplementedError "multiple aggregation args")) ∧
    ((∀ arg ∈ p.args, ∃ t, arg.field_type = TypeProto.valid t) →
     (∃ k, p.field_type = AggKindProto.valid k) →
     (∃ rt, p.return_type = TypeProto.valid rt) →
     p.args.length ≤ 1 →
      ∃ c, build_agg_call_from_proto p = .ok c) := by
  constructor
  · intro h2
    match hargs : p.args with
    | [] => rw [hargs] at h2; simp at h2
    | [a] => rw [hargs] at h2; simp at h2
    | a :: b :: t =>
      simp [build_agg_call_from_proto, hargs, StepResult.bind]
  · rintro hargv ⟨k, hk⟩ ⟨rt, hrt⟩ hlen
    match hargs : p.args with
    | [] =>
      exact ⟨⟨k, .noArgs, rt⟩, by
        simp [build_agg_call_from_proto, hargs, hk, hrt, AggKind.tryFrom,
          build_type_from_proto, StepResult.bind]⟩
    | [a] =>
      obtain ⟨t, ht⟩ := hargv a (by rw [hargs]; simp)
      exact ⟨⟨k, .unary t a.column_idx, rt⟩, by
        simp [build_agg_call_from_proto, hargs, hk, hrt, ht, AggKind.tryFrom,
          build_type_from_proto, StepResult.bind]⟩
    | a :: b :: t => rw [hargs] at hlen; simp at hlen

/-- Witness for C7: a one-argument call builds, a two-argument call fails
with the "multiple aggregation args" error. -/
theorem c7_witness :
    (∃ c, build_agg_call_from_proto aggUnary = .ok c) ∧
    build_agg_call_from_proto aggBinary =
      .err (.notImplementedError "multiple aggregation args") :=
  ⟨(c7_agg_call_arity aggUnary).2
      (by intro arg harg; fin_cases harg; exact ⟨2, rfl⟩)
      ⟨4, rfl⟩ ⟨5, rfl⟩ (by decide),
   (c7_agg_call_arity aggBinary).1 (by decide)⟩

/-! ## Claim C1 -/

/-- The manager state after registering `frag7` and building it under a run
oracle whose actor task fails. -/
def sAfterBuildErr : StreamManagerCore :=
  ⟨[], [], [], [], (some 0, none), 1, [.err (.internalError "actor failed")]⟩

/-- C1: `build_fragment` spawns the actor task but drops the `JoinHandle`
returned by `tokio::spawn` — nothing is ever pushed onto `self.handles`
(contradicting that field's own doc comment) — so `wait_all` joins nothing
and returns `Ok(())` even though the one spawned actor task failed. -/
theorem c1_wait_all_joins_nothing :
    (StreamManagerCore.update_fragment StreamManagerCore.new [frag7]).1 = .ok () ∧
    StreamManagerCore.build_fragment runErr
      (StreamManagerCore.update_fragment StreamManagerCore.new [frag7]).2 [7] =
      .ok sAfterBuildErr ∧
    sAfterBuildErr.runtime_tasks = [.err (.internalError "actor failed")] ∧
    sAfterBuildErr.handles = [] ∧
    (StreamManagerCore.wait_all sAfterBuildErr).1 = .ok () := by
  decide

/-! ## Claim C8 -/

/-- C8: a second `update_fragment` call walks every registered fragment
again, so the single declared edge 1→2 of `fragA` ends up with two
allocated channels (two senders in fragment 1's outbound set and two
receivers in fragment 2's inbound set) after registering the unrelated
`fragC` in a second call — although both calls succeed and all ids are
distinct. -/
theorem c8_duplicate_channels_on_incremental_registration :
    (StreamManagerCore.update_fragment StreamManagerCore.new [fragA]).1 =
      .ok () ∧
    (StreamManagerCore.update_fragment
      (StreamManagerCore.update_fragment StreamManagerCore.new [fragA]).2
      [fragC]).1 = .ok () ∧
    fragA.downstream_fragment_id = [2] ∧
    alookup 1 (StreamManagerCore.update_fragment
      (StreamManagerCore.update_fragment StreamManagerCore.new [fragA]).2
      [fragC]).2.channel_pool = some ([1, 2], []) ∧
    alookup 2 (StreamManagerCore.update_fragment
      (StreamManagerCore.update_fragment StreamManagerCore.new [fragA]).2
      [fragC]).2.channel_pool = some ([], [1, 2]) := by
  decide

/-! ## Claim C2 -/

/-- One step of the insertion phase, as a definitional equation. -/
theorem update_fragment_insert_cons (m : List (Nat × StreamFragment))
    (g : StreamFragment) (t : List StreamFragment) :
    StreamManagerCore.update_fragment_insert m (g :: t) =
      match ainsert g.fragment_id g m with
      | (some _, m') =>
        (.err (.internalError
          ("duplicated fragment " ++ toString g.fragment_id)), m')
      | (none, m') => StreamManagerCore.update_fragment_insert m' t := rfl

/-- One step of the insertion phase on a fresh id: the binding is added and
the loop continues. -/
theorem update_fragment_insert_cons_fresh {m : List (Nat × StreamFragment)}
    {g : StreamFragment} (t : List StreamFragment)
    (h : alookup g.fragment_id m = none) :
    StreamManagerCore.update_fragment_insert m (g :: t) =
      StreamManagerCore.update_fragment_insert (ainsert g.fragment_id g m).2 t := by
  cases hins : ainsert g.fragment_id g m with
  | mk o m1 =>
    have ho : o = none := by
      have hf := ainsert_fst g.fragment_id g m
      rw [hins, h] at hf
      exact hf
    subst ho
    rw [update_fragment_insert_cons, hins]

/-- One step of the insertion phase on an already-bound id: the error wins,
with the replacing insert kept. -/
theorem update_fragment_insert_cons_dup {m : List (Nat × StreamFragment)}
    {g : StreamFragment} (t : List StreamFragment) {g0 : StreamFragment}
    (h : alookup g.fragment_id m = some g0) :
    StreamManagerCore.update_fragment_insert m (g :: t) =
      (.err (.internalError
        ("duplicated fragment " ++ toString g.fragment_id)),
       (ainsert g.fragment_id g m).2) := by
  cases hins : ainsert g.fragment_id g m with
  | mk o m1 =>
    have ho : o = some g0 := by
      have hf := ainsert_fst g.fragment_id g m
      rw [hins, h] at hf
      exact hf
    subst ho
    rw [update_fragment_insert_cons, hins]

/-- The insertion phase hitting a duplicate: the batch prefix `pre` of fresh
distinct ids is inserted and stays inserted, the duplicate `f` replaces the
binding at its id, the error names `f`'s id, and untouched keys keep their
old bindings. -/
theorem update_fragment_insert_dup :
    ∀ (pre : List StreamFragment) (m : List (Nat × StreamFragment))
      (f : StreamFragment) (post : List StreamFragment),
      (∀ g ∈ pre, alookup g.fragment_id m = none) →
      (pre.map StreamFragment.fragment_id).Nodup →
      (alookup f.fragment_id m ≠ none ∨
        f.fragment_id ∈ pre.map StreamFragment.fragment_id) →
      ∃ m', StreamManagerCore.update_fragment_insert m (pre ++ f :: post) =
          (.err (.internalError
            ("duplicated fragment " ++ toString f.fragment_id)), m') ∧
        alookup f.fragment_id m' = some f ∧
        (∀ k, k ∉ pre.map StreamFragment.fragment_id → k ≠ f.fragment_id →
          alookup k m' = alookup k m) ∧
        (∀ g ∈ pre, g.fragment_id ≠ f.fragment_id →
          alookup g.fragment_id m' = some g)
  | [], m, f, post, _, _, hdup => by
    have hl : alookup f.fragment_id m ≠ none := by
      rcases hdup with hdup | hdup
      · exact hdup
      · simp at hdup
    cases hlo : alookup f.fragment_id m with
    | none => exact absurd hlo hl
    | some g0 =>
      refine ⟨(ainsert f.fragment_id f m).2, ?_, ?_, ?_, ?_⟩
      · show StreamManagerCore.update_fragment_insert m (f :: post) = _
        rw [update_fragment_insert_cons_dup post hlo]
      · exact alookup_ainsert_self f.fragment_id f m
      · intro k _ hkf
        exact alookup_ainsert_ne hkf f m
      · intro g hg
        simp at hg
  | g :: pre', m, f, post, hfresh, hnd, hdup => by
    have hg : alookup g.fragment_id m = none := hfresh g (by simp)
    simp only [List.map_cons, List.nodup_cons] at hnd
    have hgnotin : g.fragment_id ∉ pre'.map StreamFragment.fragment_id := hnd.1
    have hfresh' : ∀ g' ∈ pre',
        alookup g'.fragment_id (ainsert g.fragment_id g m).2 = none := by
      intro g' hg'
      have hne : g'.fragment_id ≠ g.fragment_id := by
        intro he
        exact hgnotin (he ▸ List.mem_map_of_mem StreamFragment.fragment_id hg')
      rw [alookup_ainsert_ne hne]
      exact hfresh g' (by simp [hg'])
    have hdup' : alookup f.fragment_id (ainsert g.fragment_id g m).2 ≠ none ∨
        f.fragment_id ∈ pre'.map StreamFragment.fragment_id := by
      by_cases hfg : f.fragment_id = g.fragment_id
      · left
        rw [hfg, alookup_ainsert_self]
        simp
      · rcases hdup with hd | hd
        · left
          rw [alookup_ainsert_ne hfg]
          exact hd
        · simp only [List.map_cons, List.mem_cons] at hd
          rcases hd with hd | hd
          · exact absurd hd hfg
          · exact Or.inr hd
    obtain ⟨m', heq, hvisf, hpres, hvis⟩ :=
      update_fragment_insert_dup pre' (ainsert g.fragment_id g m).2 f post
        hfresh' hnd.2 hdup'
    refine ⟨m', ?_, hvisf, ?_, ?_⟩
    · show StreamManagerCore.update_fragment_insert m
        ((g :: pre') ++ f :: post) = _
      rw [List.cons_append, update_fragment_insert_cons_fresh _ hg]
      exact heq
    · intro k hk hkf
      have hkg : k ≠ g.fragment_id := by
        intro he
        exact hk (by simp [he])
      have hkpre' : k ∉ pre'.map StreamFragment.fragment_id := by
        intro hh
        exact hk (by simp [hh])
      rw [hpres k hkpre' hkf, alookup_ainsert_ne hkg]
    · intro g' hg' hgf
      rcases List.mem_cons.mp hg' with he | hmem
      · subst he
        rw [hpres g'.fragment_id hgnotin hgf]
        exact alookup_ainsert_self g'.fragment_id g' m
      · exact hvis g' hmem hgf

/-- C2 (amended): a batch containing a duplicate id fails with the
duplicated-fragment error, but the registry is not rolled back: fragments
inserted before the duplicate stay registered (visible to a later build),
the duplicate replaces the binding at its id, and only the fragments after
the duplicate are never inserted. No channels are allocated by the failing
call (all other state fields are untouched). -/
theorem c2_registration_not_atomic
    (s : StreamManagerCore) (pre : List StreamFragment) (f : StreamFragment)
    (post : List StreamFragment)
    (hfresh : ∀ g ∈ pre, alookup g.fragment_id s.fragments = none)
    (hnd : (pre.map StreamFragment.fragment_id).Nodup)
    (hdup : alookup f.fragment_id s.fragments ≠ none ∨
      f.fragment_id ∈ pre.map StreamFragment.fragment_id) :
    ∃ m', StreamManagerCore.update_fragment s (pre ++ f :: post) =
        (.err (.internalError
          ("duplicated fragment " ++ toString f.fragment_id)),
         { s with fragments := m' }) ∧
      (∀ g ∈ pre, g.fragment_id ≠ f.fragment_id →
        alookup g.fragment_id m' = some g) ∧
      alookup f.fragment_id m' = some f := by
  obtain ⟨m', heq, hvisf, _, hvis⟩ :=
    update_fragment_insert_dup pre s.fragments f post hfresh hnd hdup
  refine ⟨m', ?_, hvis, hvisf⟩
  unfold StreamManagerCore.update_fragment
  rw [heq]

/-- Counterexample to C2 as stated: the batch `[fragA, fragB, fragB2]`
(`fragB2` repeats id 2) fails with the duplicated-fragment error, yet
`fragA` — a fragment of the failing batch — is registered and visible
afterwards, and `fragB2` has replaced `fragB`. -/
theorem c2_counterexample :
    (StreamManagerCore.update_fragment StreamManagerCore.new
      [fragA, fragB, fragB2]).1 =
      .err (.internalError "duplicated fragment 2") ∧
    alookup 1 (StreamManagerCore.update_fragment StreamManagerCore.new
      [fragA, fragB, fragB2]).2.fragments = some fragA ∧
    alookup 2 (StreamManagerCore.update_fragment StreamManagerCore.new
      [fragA, fragB, fragB2]).2.fragments = some fragB2 := by
  decide

/-- Witness for the amended C2 at the concrete failing batch. -/
theorem c2_witness :
    ∃ m', StreamManagerCore.update_fragment StreamManagerCore.new
        ([fragA, fragB] ++ fragB2 :: []) =
        (.err (.internalError
          ("duplicated fragment " ++ toString fragB2.fragment_id)),
         { StreamManagerCore.new with fragments := m' }) ∧
      (∀ g ∈ [fragA, fragB], g.fragment_id ≠ fragB2.fragment_id →
        alookup g.fragment_id m' = some g) ∧
      alookup fragB2.fragment_id m' = some fragB2 :=
  c2_registration_not_atomic StreamManagerCore.new [fragA, fragB] fragB2 []
    (by decide) (by decide) (by decide)

/-! ## Claim C3 -/

/-- C3 (amended): reaching a non-bootstrap upstream whose registered
placement is not local, the merge builder fails loudly — but by panicking
at the `todo!` with message "remote node is not supported in streaming
engine", not by returning a recoverable `UnsupportedFeature` error; the
upstream is never silently skipped. -/
theorem c3_remote_upstream_panics (s : StreamManagerCore) (id : Nat)
    (pre : List Nat) (u : Nat) (post : List Nat)
    (hpre : ∀ v ∈ pre, v ≠ 0 ∧ ∃ a, alookup v s.actors = some a ∧
      a.host.host = "127.0.0.1")
    (hu0 : u ≠ 0)
    (hremote : ∃ b, alookup u s.actors = some b ∧
      b.host.host ≠ "127.0.0.1") :
    StreamManagerCore.create_merger s id (pre ++ u :: post) =
      .panicked "not yet implemented: remote node is not supported in streaming engine" := by
  obtain ⟨b, hb, hbr⟩ := hremote
  have hne : ¬ ((pre ++ u :: post).isEmpty = true) := by
    cases pre <;> simp
  unfold StreamManagerCore.create_merger
  rw [if_neg hne]
  dsimp only
  rw [merger_loop_skips_local s.actors pre _ _ _ hpre]
  simp [StreamManagerCore.merger_loop, hu0, hb, hbr, StepResult.bind]

/-- Counterexample to C3 as stated: with upstream 5 registered on a remote
host, `create_merger` panics at the `todo!` — it does not return a
recoverable `UnsupportedFeature` error (it is not an `Err` at all). -/
theorem c3_counterexample :
    StreamManagerCore.create_merger sRemote 1 [5] =
      .panicked "not yet implemented: remote node is not supported in streaming engine" ∧
    ∀ e : ErrorCode, StreamManagerCore.create_merger sRemote 1 [5] ≠ .err e := by
  have h1 : StreamManagerCore.create_merger sRemote 1 [5] =
      .panicked "not yet implemented: remote node is not supported in streaming engine" := by
    decide
  refine ⟨h1, fun e h => ?_⟩
  rw [h1] at h
  exact StepResult.noConfusion h

/-- Witness for the amended C3 at the concrete remote-upstream input. -/
theorem c3_witness :
    StreamManagerCore.create_merger sRemote 1 ([] ++ 5 :: []) =
      .panicked "not yet implemented: remote node is not supported in streaming engine" :=
  c3_remote_upstream_panics sRemote 1 [] 5 [] (by simp) (by decide)
    ⟨⟨5, ⟨"192.168.1.1"⟩⟩, by decide, by decide⟩

/-! ## Claim C4 -/

/-- C4 (amended): when the receiver count collected for a fragment differs
from its declared upstream count (here: all upstreams non-bootstrap and
local), the build fails the `assert_eq!` — a panic whose message names the
registered count, the required count and the fragment id — rather than
returning a recoverable `TopologyMismatch` error. -/
theorem c4_topology_mismatch_panics (s : StreamManagerCore) (id : Nat)
    (ups : List Nat) (hne : ups ≠ [])
    (hlocal : ∀ v ∈ ups, v ≠ 0 ∧ ∃ a, alookup v s.actors = some a ∧
      a.host.host = "127.0.0.1")
    (hmis : (StreamManagerCore.take_inbound s id).1.length ≠ ups.length) :
    StreamManagerCore.create_merger s id ups =
      .panicked ("upstreams are not fully available: "
        ++ toString (StreamManagerCore.take_inbound s id).1.length
        ++ " registered while " ++ toString ups.length
        ++ " required, fragment_id=" ++ toString id) := by
  have hloop := merger_loop_skips_local s.actors ups []
    (StreamManagerCore.take_inbound s id).1 s.mock_source.2 hlocal
  rw [List.append_nil] at hloop
  have hne' : ¬ (ups.isEmpty = true) := by simp [hne]
  unfold StreamManagerCore.create_merger
  rw [if_neg hne']
  dsimp only
  rw [hloop]
  simp [StreamManagerCore.merger_loop, StepResult.bind, hmis]

/-- Counterexample to C4 as stated: a fragment declaring upstreams 2 and 3
(both local) with only one registered inbound endpoint makes the build
panic on the `assert_eq!` — it does not return a `TopologyMismatch` error
(it is not an `Err` at all). -/
theorem c4_counterexample :
    StreamManagerCore.create_merger sTwoUpstreams 1 [2, 3] =
      .panicked "upstreams are not fully available: 1 registered while 2 required, fragment_id=1" ∧
    ∀ e : ErrorCode,
      StreamManagerCore.create_merger sTwoUpstreams 1 [2, 3] ≠ .err e := by
  have h1 : StreamManagerCore.create_merger sTwoUpstreams 1 [2, 3] =
      .panicked "upstreams are not fully available: 1 registered while 2 required, fragment_id=1" := by
    decide
  refine ⟨h1, fun e h => ?_⟩
  rw [h1] at h
  exact StepResult.noConfusion h

/-- Witness for the amended C4 at the concrete two-vs-one input. -/
theorem c4_witness :
    StreamManagerCore.create_merger sTwoUpstreams 1 [2, 3] =
      .panicked ("upstreams are not fully available: "
        ++ toString (StreamManagerCore.take_inbound sTwoUpstreams 1).1.length
        ++ " registered while " ++ toString ([2, 3] : List Nat).length
        ++ " required, fragment_id=" ++ toString (1 : Nat)) := by
  refine c4_topology_mismatch_panics sTwoUpstreams 1 [2, 3] (by decide) ?_
    (by decide)
  intro v hv
  rcases List.mem_cons.mp hv with rfl | hv
  · exact ⟨by decide, ⟨2, ⟨"127.0.0.1"⟩⟩, by decide, by decide⟩
  rcases List.mem_cons.mp hv with rfl | hv
  · exact ⟨by decide, ⟨3, ⟨"127.0.0.1"⟩⟩, by decide, by decide⟩
  simp at hv

/-! ## Claim C6 -/

/-- C6 (amended): with the Simple dispatch policy (and the output count
matching the declared downstream count, as registration guarantees), the
build succeeds exactly when there is one output — producing a
`SimpleDispatcher` over it — and with any other output count it panics on
the `assert_eq!(outputs.len(), 1)`, rather than returning a recoverable
`InvalidDispatchArity` error. -/
theorem c6_simple_dispatch_arity (s : StreamManagerCore)
    (input : StreamOperator) (d : Dispatcher) (id : Nat) (ds : List Nat)
    (hsimple : d.field_type = .simple)
    (hlen : ds.length = (StreamManagerCore.take_outbound s id).1.length) :
    ((StreamManagerCore.take_outbound s id).1.length = 1 →
      ∃ o s', StreamManagerCore.create_dispatcher s input d id ds =
        .ok (.simpleDispatch input o, s')) ∧
    ((StreamManagerCore.take_outbound s id).1.length ≠ 1 →
      StreamManagerCore.create_dispatcher s input d id ds =
        .panicked "assertion failed: outputs.len() == 1") := by
  unfold StreamManagerCore.create_dispatcher
  dsimp only
  rw [if_pos hlen, hsimple]
  constructor
  · intro h1
    cases hout : (StreamManagerCore.take_outbound s id).1 with
    | nil => rw [hout] at h1; simp at h1
    | cons o t =>
      cases t with
      | nil => exact ⟨o, (StreamManagerCore.take_outbound s id).2, rfl⟩
      | cons b t2 => rw [hout] at h1; simp at h1
  · intro h1
    cases hout : (StreamManagerCore.take_outbound s id).1 with
    | nil => rfl
    | cons o t =>
      cases t with
      | nil => rw [hout] at h1; simp at h1
      | cons b t2 => rfl

/-- Counterexample to C6 as stated: Simple dispatch wired with the two
declared downstream ids 8 and 9 (two registered senders) panics on the
`assert_eq!` — it does not return an `InvalidDispatchArity` error (it is
not an `Err` at all); with one downstream id it succeeds. -/
theorem c6_counterexample :
    StreamManagerCore.create_dispatcher sTwoOut (.receiverOp 0) ⟨.simple, 0⟩
      1 [8, 9] = .panicked "assertion failed: outputs.len() == 1" ∧
    (∀ e : ErrorCode, StreamManagerCore.create_dispatcher sTwoOut
      (.receiverOp 0) ⟨.simple, 0⟩ 1 [8, 9] ≠ .err e) ∧
    (StreamManagerCore.create_dispatcher sOneOut (.receiverOp 0) ⟨.simple, 0⟩
      1 [8]).isOk = true := by
  have h1 : StreamManagerCore.create_dispatcher sTwoOut (.receiverOp 0)
      ⟨.simple, 0⟩ 1 [8, 9] =
      .panicked "assertion failed: outputs.len() == 1" := by decide
  refine ⟨h1, fun e h => ?_, by decide⟩
  rw [h1] at h
  exact StepResult.noConfusion h

/-- Witness for the amended C6: one output succeeds, two outputs panic. -/
theorem c6_witness :
    (∃ o s', StreamManagerCore.create_dispatcher sOneOut (.receiverOp 0)
      ⟨.simple, 0⟩ 1 [8] = .ok (.simpleDispatch (.receiverOp 0) o, s')) ∧
    StreamManagerCore.create_dispatcher sTwoOut (.receiverOp 0) ⟨.simple, 0⟩
      1 [8, 9] = .panicked "assertion failed: outputs.len() == 1" :=
  ⟨(c6_simple_dispatch_arity sOneOut (.receiverOp 0) ⟨.simple, 0⟩ 1 [8]
      rfl (by decide)).1 (by decide),
   (c6_simple_dispatch_arity sTwoOut (.receiverOp 0) ⟨.simple, 0⟩ 1 [8, 9]
      rfl (by decide)).2 (by decide)⟩

/-! ## Claim C10 -/

/-- C10 (amended): the mock-source receiver is single-use for the manager's
lifetime — a merge build that returns normally with upstream 0 listed has
consumed it (the `Option` is `None` afterwards), and once it is `None`,
any merge build reaching upstream 0 panics on the `unwrap` of the emptied
`Option` instead of returning a recoverable error. (The test hook
`take_source` takes the sender half of the mock source, not this receiver,
so it does not make builds panic.) -/
theorem c10_mock_receiver_single_use :
    (∀ (s : StreamManagerCore) (id : Nat) (ups : List Nat)
      (op : StreamOperator) (s' : StreamManagerCore),
      StreamManagerCore.create_merger s id ups = .ok (op, s') → 0 ∈ ups →
      s'.mock_source.2 = none) ∧
    (∀ (s : StreamManagerCore) (id : Nat) (pre post : List Nat),
      s.mock_source.2 = none →
      (∀ v ∈ pre, v ≠ 0 ∧ ∃ a, alookup v s.actors = some a ∧
        a.host.host = "127.0.0.1") →
      StreamManagerCore.create_merger s id (pre ++ 0 :: post) =
        .panicked "called Option::unwrap() on a None value") := by
  constructor
  · intro s id ups op s' h h0
    exact (create_merger_ok_inv h).2.2 h0
  · intro s id pre post hmock hpre
    have hne : ¬ ((pre ++ 0 :: post).isEmpty = true) := by
      cases pre <;> simp
    unfold StreamManagerCore.create_merger
    rw [if_neg hne]
    dsimp only
    rw [merger_loop_skips_local s.actors pre _ _ _ hpre, hmock]
    simp [StreamManagerCore.merger_loop, StepResult.bind]

/-- Counterexample to C10 as stated: calling the test hook `take_source`
on a fresh manager and then registering and building a fragment whose
upstream list is `[0]` succeeds — `take_source` removes the sender half,
not the receiver, so the build does not panic. -/
theorem c10_counterexample :
    ((StreamManagerCore.take_source StreamManagerCore.new).bind fun r =>
      StreamManagerCore.build_fragment runOk
        (StreamManagerCore.update_fragment r.2 [frag7]).2 [7]).isOk = true := by
  decide

/-- Witness for the amended C10: the fresh-state merge build over `[0]`
consumes the receiver, and a merge build over `[0]` in a consumed state
panics on the `unwrap`. -/
theorem c10_witness :
    sMockGone.mock_source.2 = none ∧
    StreamManagerCore.create_merger sMockGone 9 ([] ++ 0 :: []) =
      .panicked "called Option::unwrap() on a None value" :=
  ⟨(c10_mock_receiver_single_use).1 StreamManagerCore.new 7 [0]
      (.receiverOp 0) sMockGone (by decide) (by decide),
   (c10_mock_receiver_single_use).2 sMockGone 9 [] [] rfl (by simp)⟩

end StreamManagerSpec
